import Mathlib

/-
Verification development for the mcp-beeper-texts query layer
(src/mcp_beeper_texts/queries.py, server.py, models.py, db.py).

Shallow embedding conventions:
- SQLite tables are lists of typed rows; JSON blob columns are modelled by
  the fields the code extracts from them (json_extract projections become
  record fields), plus a small JSON value type JVal for payloads that the
  Python code parses dynamically with json.loads.
- Library calls that are external to the repository (json.loads, SQLite
  ORDER BY collation details aside, datetime parsing and formatting, the
  filesystem and PIL) are modelled as explicit function parameters carried
  in an Env / AttEnv record, so every definition stays executable.
- Python exceptions that escape a function are modelled with Except; code
  that swallows exceptions pattern-matches the Except away.
- Machine integers are Int (SQLite INTEGER is 64-bit, but no arithmetic in
  this code can overflow it on realistic data; comparisons are exact).
- senderContactID is modelled as a non-null String, matching the observed
  schema and every row the application writes.
-/

namespace Beeper

/-! ## JSON values (result of json.loads) -/

inductive JVal where
  | jnull : JVal
  | jbool : Bool → JVal
  | jnum : ℚ → JVal
  | jstr : String → JVal
  | jarr : List JVal → JVal
  | jobj : List (String × JVal) → JVal

/-- Python truthiness of a JSON value. -/
def pyTruthy : JVal → Bool
  | .jnull => false
  | .jbool b => b
  | .jnum q => decide (q ≠ 0)
  | .jstr s => s ≠ ""
  | .jarr l => !l.isEmpty
  | .jobj l => !l.isEmpty

/-- dict.get(k): first binding wins, as in a Python dict built by json.loads. -/
def jget (fields : List (String × JVal)) (k : String) : Option JVal :=
  (fields.find? (fun p => p.1 = k)).map (·.2)

/-- Python `a or b` on two optional JSON values (absent key = none = falsy). -/
def pyOrJ (a b : Option JVal) : Option JVal :=
  match a with
  | some v => if pyTruthy v then some v else b
  | none => b

/-- Rendering of a JSON value to a string. For the string payload fields the
code actually reads this is the identity on jstr; the remaining cases are a
best-effort abstraction of str() (those fields hold strings in the schema). -/
def pyStr : JVal → String
  | .jnull => "None"
  | .jbool b => if b then "True" else "False"
  | .jnum q => toString q
  | .jstr s => s
  | .jarr _ => "[array]"
  | .jobj _ => "[object]"

/-! ## String helpers with Python / SQLite semantics (ASCII case rules) -/

def strLower (s : String) : String := ⟨s.data.map Char.toLower⟩

def strUpper (s : String) : String := ⟨s.data.map Char.toUpper⟩

def listContainsSeq (hay needle : List Char) : Bool :=
  hay.tails.any (fun t => needle.isPrefixOf t)

/-- Python `needle in hay` on strings: contiguous substring test. -/
def strContains (hay needle : String) : Bool := listContainsSeq hay.data needle.data

/-- Python str.startswith. -/
def strStarts (s pre : String) : Bool := pre.data.isPrefixOf s.data

/-- Python str.endswith. -/
def strEnds (s post : String) : Bool := post.data.reverse.isPrefixOf s.data.reverse

/-- str.title() as used on the fixed tags IMAGE / VIDEO. -/
def titleCase (s : String) : String :=
  match s.data with
  | [] => ""
  | c :: rest => ⟨Char.toUpper c :: rest.map Char.toLower⟩

def isPySpace (c : Char) : Bool :=
  c = ' ' || c = '\t' || c = '\n' || c = '\r' || c = '\x0b' || c = '\x0c'

/-- str.lstrip() followed by startswith(("\x7b", "[")): does the payload look
like a JSON object or array. -/
def looksLikeJson (s : String) : Bool :=
  match s.data.dropWhile isPySpace with
  | [] => false
  | c :: _ => c = '{' || c = '['

/-- int(s) for a decimal literal: strip, optional sign, digits with single
underscores between digits (ASCII subset of the CPython rules). -/
def digitsAux : Nat → Bool → List Char → Option Nat
  | acc, lastDigit, [] => if lastDigit then some acc else none
  | acc, lastDigit, c :: rest =>
    if c.isDigit then digitsAux (acc * 10 + (c.toNat - 48)) true rest
    else if c = '_' then (if lastDigit then digitsAux acc false rest else none)
    else none

def pyParseInt (s : String) : Option Int :=
  let t := ((s.data.dropWhile isPySpace).reverse.dropWhile isPySpace).reverse
  match t with
  | [] => none
  | c :: rest =>
    let sgn : Bool × List Char :=
      if c = '-' then (true, rest) else if c = '+' then (false, rest) else (false, c :: rest)
    match digitsAux 0 false sgn.2 with
    | some n => some (if sgn.1 then -(n : Int) else (n : Int))
    | none => none

/-! ## Domain models (models.py) -/

structure Reaction where
  emoji : String
  sender_name : String
  timestamp : String
deriving DecidableEq

structure MessageAttachment where
  uri : String
  type : String
  mime_type : String
  duration : Option ℚ
deriving DecidableEq

structure Message where
  sender_name : String
  text : String
  timestamp : String
  message_type : String
  in_reply_to : Option String
  reactions : List Reaction
  attachments : List MessageAttachment
deriving DecidableEq

structure Chat where
  chat_id : String
  name : String
  platform : String
  unread : Bool
  last_activity : String
  total_messages : Nat
  participants : List String
  recent_messages : List Message
deriving DecidableEq

structure ChatSearchResult where
  chat : Chat
  messages : List Message
deriving DecidableEq

inductive ChatLabel where
  | all | inbox | archive | favourite | unread
deriving DecidableEq

/-! ## Store model (index.db and the per-platform megabridge.db files) -/

/-- One entry of the participants.items JSON list of a thread. A field is
none when the key is absent. -/
structure Participant where
  id : Option String
  fullName : Option String
deriving DecidableEq

/-- A row of the threads table, with the JSON thread blob modelled by the
fields the code extracts from it. -/
structure ThreadRow where
  threadID : String
  title : Option String
  participantsItems : Option (List Participant)
  threadType : Option String
  isLowPriority : Option Int
  isMarkedUnread : Option Int
  isArchivedUpto : Option Int
  tags : Option String
  archivedUpToOrder : Option Int
deriving DecidableEq

/-- A row of mx_room_messages. textField and extraType model the SQLite
json_extract of the message payload at paths text and extra.type. -/
structure MsgRow where
  roomID : String
  senderContactID : String
  message : Option String
  timestamp : Int
  isSentByMe : Bool
  type : String
  inReplyToID : Option String
  eventID : Option String
  hsOrder : Option Int
  textField : Option String
  extraType : Option String
deriving DecidableEq

structure PortalRow where
  mxid : String
  other_user_id : Option String
  room_type : Option String
  parent_id : Option String
deriving DecidableEq

structure GhostRow where
  id : String
  name : String
deriving DecidableEq

/-- One per-platform side database; parentName is the name of the directory
holding the megabridge.db file (e.g. local-whatsapp). -/
structure PlatformDb where
  parentName : String
  portal : List PortalRow
  ghost : List GhostRow
deriving DecidableEq

structure Store where
  threads : List ThreadRow
  messages : List MsgRow
  breadcrumbs : List (String × Int)
deriving DecidableEq

/-- External library behaviour carried as data: json.loads, the local-time
ISO-8601 formatter of datetime (none = ValueError / OSError), the current
wall-clock time, and the composite
int(datetime.fromisoformat(s).timestamp() * 1000) (none = ValueError). -/
structure Env where
  jsonLoads : String → Option JVal
  fmtTime : ℚ → Option String
  nowIso : String
  nowMs : Int
  parseIso : String → Option Int

/-! ## Message type sets (queries.py module constants) -/

def MESSAGE_TYPES_RETURN : List String :=
  ["TEXT", "IMAGE", "VIDEO", "AUDIO", "FILE", "CONTACT"]

def MESSAGE_TYPES_EXTENDED : List String :=
  MESSAGE_TYPES_RETURN ++ ["STICKER", "LOCATION"]

/-! ## nanoseconds_to_iso -/

/-- The magnitude classification and unit conversion inside
nanoseconds_to_iso, with float division modelled as exact division in ℚ. -/
def toSeconds (timestamp_ns : Int) : ℚ :=
  if timestamp_ns > 10 ^ 15 then
    (timestamp_ns : ℚ) / (if timestamp_ns > 10 ^ 18 then (1000000000 : ℚ) else 1000000)
  else if timestamp_ns > 10 ^ 12 then (timestamp_ns : ℚ) / 1000
  else (timestamp_ns : ℚ)

/-- nanoseconds_to_iso: classify the raw epoch by magnitude, convert to
seconds and format; on a formatter failure (ValueError / OSError) fall back
to the current time. -/
def nanoseconds_to_iso (env : Env) (timestamp_ns : Int) : String :=
  (env.fmtTime (toSeconds timestamp_ns)).getD env.nowIso

/-! ## resolve_platform_from_room_id -/

/-- The fixed ordered keyword → label table (a Python dict preserves
insertion order). -/
def platformTable : List (String × String) :=
  [("whatsapp", "WhatsApp"), ("telegram", "Telegram"), ("signal", "Signal"),
   ("linkedin", "LinkedIn"), ("discord", "Discord"), ("slack", "Slack"),
   ("facebook", "Facebook"), ("instagram", "Instagram"),
   ("imessage", "iMessage"), ("twitter", "Twitter")]

def resolve_platform_from_room_id (room_id : String) : String :=
  let room_id_lower := strLower room_id
  match platformTable.find? (fun kv => strContains room_id_lower kv.1) with
  | some kv => kv.2
  | none => if strContains room_id "beeper.local" then "Beeper" else "Unknown"

/-! ## get_contact_name -/

def get_contact_name (store : Store) (sender_id room_id : String)
    (is_from_me : Bool) : String :=
  if is_from_me then "Me"
  else
    match store.threads.find? (fun t => t.threadID = room_id) with
    | none => sender_id
    | some t =>
      match t.participantsItems with
      | none => sender_id
      | some ps =>
        match ps.find? (fun p => p.id = some sender_id) with
        | some p => p.fullName.getD sender_id
        | none => sender_id

/-! ## extract_message_attachments -/

/-- Python exceptions that matter for this development. -/
inductive PyExn where
  | valueError : String → PyExn
  | attributeError : PyExn
deriving DecidableEq

def pyStrExn : PyExn → String
  | .valueError m => m
  | .attributeError => "AttributeError"

/-- The mimeType-or-mimetype-or-default resolution shared by infer_type and
the mime_type field (both evaluate the same expression in the source); a
truthy non-string value makes str.startswith raise AttributeError. -/
def mimeOf (d : List (String × JVal)) : Except PyExn String :=
  match pyOrJ (jget d "mimeType") (jget d "mimetype") with
  | some v =>
    if pyTruthy v then
      match v with
      | .jstr s => .ok s
      | _ => .error .attributeError
    else .ok "application/octet-stream"
  | none => .ok "application/octet-stream"

def infer_type (mime : String) : String :=
  if strStarts mime "image/" then "image"
  else if strStarts mime "audio/" then "audio"
  else if strStarts mime "video/" then "video"
  else "file"

/-- The list comprehension over enumerate(items): non-dict entries are
skipped but still advance the index i. -/
def buildAttsGo (message_id : String) : Nat → List JVal → Except PyExn (List MessageAttachment)
  | _, [] => .ok []
  | i, a :: rest =>
    match a with
    | .jobj d =>
      match mimeOf d with
      | .error e => .error e
      | .ok mime =>
        let att : MessageAttachment :=
          { uri := "beeper://attachment/" ++ message_id ++ "/" ++ toString i,
            type := infer_type mime,
            mime_type := mime,
            duration := match jget d "duration" with | some (.jnum q) => some q | _ => none }
        (buildAttsGo message_id (i + 1) rest).map (att :: ·)
    | _ => buildAttsGo message_id (i + 1) rest

def extract_message_attachments (jsonLoads : String → Option JVal)
    (message_json message_id : String) : Except PyExn (List MessageAttachment) :=
  if message_json = "" then .ok []
  else
    match jsonLoads message_json with
    | none => .ok []
    | some (.jobj fields) =>
      -- items = data.get("attachments") or []
      let itemsV : JVal :=
        match jget fields "attachments" with
        | some w => if pyTruthy w then w else .jarr []
        | none => .jarr []
      match itemsV with
      | .jarr items => buildAttsGo message_id 0 items
      | _ => .ok []
    | some _ => .error .attributeError  -- data.get on a non-dict JSON value

/-! ## extract_message_text -/

/-- data.get(k, default) with the value rendered through pyStr. -/
def jgetStr (fields : List (String × JVal)) (k : String) (dflt : String) : String :=
  match jget fields k with
  | some v => pyStr v
  | none => dflt

/-- data.get(k) followed by a Python truthiness test. -/
def jgetTruthy (fields : List (String × JVal)) (k : String) : Bool :=
  match jget fields k with
  | some v => pyTruthy v
  | none => false

def typedExtract (fields : List (String × JVal)) (upper_type : String) : String :=
  if upper_type = "TEXT" then jgetStr fields "body" (jgetStr fields "text" "")
  else if upper_type = "IMAGE" || upper_type = "VIDEO" then
    jgetStr fields "text" (jgetStr fields "body" ("[" ++ titleCase upper_type ++ "]"))
  else if upper_type = "AUDIO" then
    if jgetTruthy fields "url" then "[Audio: " ++ jgetStr fields "url" "" ++ "]"
    else "[Audio message]"
  else if upper_type = "FILE" then
    let filename := jgetStr fields "filename" "file"
    if jgetTruthy fields "url" then "[File: " ++ filename ++ " - " ++ jgetStr fields "url" "" ++ "]"
    else "[File: " ++ filename ++ "]"
  else if upper_type = "LOCATION" then
    if jgetTruthy fields "geo_uri" then "[Location: " ++ jgetStr fields "geo_uri" "" ++ "]"
    else "[Location]"
  else if upper_type = "CONTACT" then "[Contact: " ++ jgetStr fields "display_name" "Contact" ++ "]"
  else if upper_type = "STICKER" then
    if jgetTruthy fields "url" then "[Sticker: " ++ jgetStr fields "url" "" ++ "]"
    else "[Sticker]"
  else jgetStr fields "body" (jgetStr fields "text" ("[" ++ upper_type ++ "]"))

/-- extract_message_text(message_input, message_type). message_type is
Option String because the type column feeding it is nullable; Python sees
None or a string, and (message_type or "TEXT") folds both falsy cases. -/
def extract_message_text (jsonLoads : String → Option JVal)
    (message_input : String) (message_type : Option String) : String :=
  if message_input = "" then ""
  else
    let upper_type :=
      strUpper (match message_type with
                | some t => if t = "" then "TEXT" else t
                | none => "TEXT")
    let looks := looksLikeJson message_input
    let data : Option JVal := if looks then jsonLoads message_input else none
    match data with
    | some (.jobj fields) => typedExtract fields upper_type
    | _ =>
      -- not a dict payload: treat input as plain text
      if upper_type = "TEXT" then message_input
      else if message_input ≠ "" then message_input
      else "[" ++ upper_type ++ "]"

/-! ## get_chat_name and check_community (per-platform side stores) -/

/-- The loop over platform databases inside get_chat_name: for each store
whose directory name contains the platform keyword, look up the portal row
with a non-null counterpart id and then a non-empty ghost name. -/
def chatNameFromDbs (platform chat_id : String) : List PlatformDb → Option String
  | [] => none
  | db :: rest =>
    if strContains db.parentName platform then
      match db.portal.find? (fun p => p.mxid = chat_id && p.other_user_id.isSome) with
      | some p =>
        match db.ghost.find? (fun g => g.id = (p.other_user_id.getD "") && g.name ≠ "") with
        | some g => if g.name ≠ "" then some g.name else chatNameFromDbs platform chat_id rest
        | none => chatNameFromDbs platform chat_id rest
      | none => chatNameFromDbs platform chat_id rest
    else chatNameFromDbs platform chat_id rest

def get_chat_name (thread_title : Option String) (chat_id : String)
    (platform_dbs : List PlatformDb) : String :=
  match thread_title with
  | some t =>
    if t ≠ "" then t
    else get_chat_name_fallback chat_id platform_dbs
  | none => get_chat_name_fallback chat_id platform_dbs
where
  get_chat_name_fallback (chat_id : String) (platform_dbs : List PlatformDb) : String :=
    let platform := strLower (resolve_platform_from_room_id chat_id)
    match chatNameFromDbs platform chat_id platform_dbs with
    | some name => name
    | none =>
      -- fallback: chat_id.split(":")[0][1:] when it starts with ! and has a colon
      if strStarts chat_id "!" && strContains chat_id ":" then
        ⟨(chat_id.data.takeWhile (fun c => c ≠ ':')).drop 1⟩
      else chat_id

/-- check_community: only the first whatsapp side store is consulted (the
loop breaks after it whether or not a portal row was found). -/
def check_community (chat_id : String) : List PlatformDb → Bool
  | [] => false
  | db :: rest =>
    if strContains db.parentName "whatsapp" then
      match db.portal.find? (fun p => p.mxid = chat_id) with
      | some p => p.room_type = some "space" || p.parent_id.isSome
      | none => false
    else check_community chat_id rest

/-! ## SQL ORDER BY as (stable, deterministic) insertion sort -/

/-- ORDER BY timestamp DESC. -/
def msgDescRel (a b : MsgRow) : Prop := b.timestamp ≤ a.timestamp

instance : DecidableRel msgDescRel :=
  fun a b => inferInstanceAs (Decidable (b.timestamp ≤ a.timestamp))

instance : IsTotal MsgRow msgDescRel := ⟨fun a b => le_total b.timestamp a.timestamp⟩

instance : IsTrans MsgRow msgDescRel := ⟨fun _ _ _ h1 h2 => le_trans h2 h1⟩

/-- ORDER BY timestamp ASC. -/
def msgAscRel (a b : MsgRow) : Prop := a.timestamp ≤ b.timestamp

instance : DecidableRel msgAscRel :=
  fun a b => inferInstanceAs (Decidable (a.timestamp ≤ b.timestamp))

instance : IsTotal MsgRow msgAscRel := ⟨fun a b => le_total a.timestamp b.timestamp⟩

instance : IsTrans MsgRow msgAscRel := ⟨fun _ _ _ h1 h2 => le_trans h1 h2⟩

/-! ## _build_message_from_row -/

/-- The row-like object handed to _build_message_from_row. The outer Option
of eventID distinguishes a missing eventID column (row.keys() check) from a
NULL value. -/
structure BRow where
  sender_id : String
  message : Option String
  timestamp : Int
  is_from_me : Bool
  type : String
  in_reply_to : Option String
  eventID : Option (Option String)
deriving DecidableEq

def rowOfMsg (m : MsgRow) : BRow :=
  { sender_id := m.senderContactID, message := m.message, timestamp := m.timestamp,
    is_from_me := m.isSentByMe, type := m.type, in_reply_to := m.inReplyToID,
    eventID := some m.eventID }

def buildMessageFromRow (env : Env) (store : Store) (r : BRow) (chat_id : String) : Message :=
  let sender_name := get_contact_name store r.sender_id chat_id r.is_from_me
  let text := extract_message_text env.jsonLoads (r.message.getD "") (some r.type)
  let attachments : List MessageAttachment :=
    match r.eventID with
    | none => []  -- eventID column absent from the row
    | some ev =>
      if r.message.getD "" ≠ "" then
        let message_id :=
          match ev with
          | some e => if e ≠ "" then e else "msg_" ++ toString r.timestamp
          | none => "msg_" ++ toString r.timestamp
        match extract_message_attachments env.jsonLoads (r.message.getD "") message_id with
        | .ok l => l
        | .error _ => []  -- except Exception: continue without attachments
      else []
  { sender_name := sender_name,
    text := text,
    timestamp := nanoseconds_to_iso env r.timestamp,
    message_type := strLower r.type,
    in_reply_to := r.in_reply_to,
    reactions := [],
    attachments := attachments }

/-! ## _get_context_messages -/

/-- The WHERE clause of the context query: same chat, returnable type,
non-null message payload, timestamp BETWEEN match - window AND match + window
(both bounds inclusive). -/
def ctxPred (chat_id : String) (ts window : Int) (m : MsgRow) : Bool :=
  m.roomID = chat_id && MESSAGE_TYPES_RETURN.contains m.type && m.message.isSome
    && decide (ts - window ≤ m.timestamp) && decide (m.timestamp ≤ ts + window)

def contextRows (store : Store) (chat_id : String) (ts window : Int) (limit : Nat) : List MsgRow :=
  ((store.messages.filter (ctxPred chat_id ts window)).insertionSort msgAscRel).take limit

def getContextMessages (env : Env) (store : Store) (chat_id : String) (timestamp : Int)
    (context_window : Int := 3600000) (limit : Nat := 20) : List Message :=
  (contextRows store chat_id timestamp context_window limit).map
    (fun m => buildMessageFromRow env store (rowOfMsg m) chat_id)

/-! ## _build_chat_from_id -/

def threadTitleOf (store : Store) (chat_id : String) : Option String :=
  match store.threads.find? (fun t => t.threadID = chat_id) with
  | some t => t.title
  | none => none

def buildChatFromId (env : Env) (store : Store) (platform_dbs : List PlatformDb)
    (chat_id : String) (last_activity : Option String) : Chat :=
  let platform := resolve_platform_from_room_id chat_id
  let chat_name := get_chat_name (threadTitleOf store chat_id) chat_id platform_dbs
  let total_messages :=
    (store.messages.filter
      (fun m => m.roomID = chat_id && MESSAGE_TYPES_EXTENDED.contains m.type)).length
  -- activity = last_activity if last_activity else nanoseconds_to_iso(0)
  let activity :=
    match last_activity with
    | some a => if a ≠ "" then a else nanoseconds_to_iso env 0
    | none => nanoseconds_to_iso env 0
  { chat_id := chat_id, name := chat_name, platform := platform, unread := false,
    last_activity := activity, total_messages := total_messages,
    participants := [], recent_messages := [] }

/-! ## fetch_messages -/

/-- A timestamp bound: absent, falsy (empty string) and unparseable bounds
all mean the corresponding filter is not added to the query. -/
def effBound (env : Env) (o : Option String) : Option Int :=
  match o with
  | none => none
  | some b => if b = "" then none else env.parseIso (b.replace "Z" "+00:00")

def fetchPred (env : Env) (chat_id : String) (before after : Option String) (m : MsgRow) : Bool :=
  m.roomID = chat_id && MESSAGE_TYPES_RETURN.contains m.type && m.message.isSome
    && (match effBound env after with | some t => decide (t < m.timestamp) | none => true)
    && (match effBound env before with | some t => decide (m.timestamp < t) | none => true)

def fetchRows (env : Env) (store : Store) (chat_id : String) (limit : Nat)
    (before after : Option String) : List MsgRow :=
  ((store.messages.filter (fetchPred env chat_id before after)).insertionSort msgDescRel).take limit

def fetch_messages (env : Env) (store : Store) (_platform_dbs : List PlatformDb)
    (chat_id : String) (limit : Nat) (before after : Option String) : List Message :=
  (fetchRows env store chat_id limit before after).map
    (fun m => buildMessageFromRow env store (rowOfMsg m) chat_id)

/-! ## search_messages -/

/-- WHERE json_extract(message, text) LIKE pattern AND ... IS NOT NULL AND
type IN returnable AND optional roomID scope. SQLite LIKE is
case-insensitive on ASCII; queries are assumed free of LIKE wildcards. -/
def searchMatchPred (query : String) (scope : Option String) (m : MsgRow) : Bool :=
  (match m.textField with
   | some t => strContains (strLower t) (strLower query)
   | none => false)
    && MESSAGE_TYPES_RETURN.contains m.type
    && (match scope with | some c => m.roomID = c | none => true)

def searchRows (store : Store) (query : String) (scope : Option String) (limit : Nat) :
    List MsgRow :=
  ((store.messages.filter (searchMatchPred query scope)).insertionSort msgDescRel).take limit

/-- The dict handed to _build_message_from_row for a match: the message
column is the extracted text, the type is extra.type or TEXT, and the
in_reply_to / eventID keys are absent. -/
def searchSingletonRow (m : MsgRow) : BRow :=
  { sender_id := m.senderContactID,
    message := m.textField,
    timestamp := m.timestamp,
    is_from_me := m.senderContactID = "user"
      || (strContains m.senderContactID "@" && strContains m.senderContactID "beeper.com"),
    type := (match m.extraType with | some t => if t ≠ "" then t else "TEXT" | none => "TEXT"),
    in_reply_to := none,
    eventID := none }

def mkSearchResult (env : Env) (store : Store) (platform_dbs : List PlatformDb)
    (include_context : Bool) (m : MsgRow) : ChatSearchResult :=
  let message := buildMessageFromRow env store (searchSingletonRow m) m.roomID
  let messages :=
    if include_context then
      let context_messages := getContextMessages env store m.roomID m.timestamp 3600000 10
      if context_messages.isEmpty then [message] else context_messages
    else [message]
  let chat := buildChatFromId env store platform_dbs m.roomID (some message.timestamp)
  { chat := chat, messages := messages }

def search_messages (env : Env) (store : Store) (platform_dbs : List PlatformDb)
    (query : String) (chat_id : Option String) (limit : Nat) (include_context : Bool) :
    List ChatSearchResult :=
  (searchRows store query chat_id limit).map
    (mkSearchResult env store platform_dbs include_context)

/-! ## apply_inbox_filters -/

/-- A row of the fetch_chats base query (threads LEFT JOIN breadcrumbs with
json_extract projections and two correlated sub-selects). -/
structure ChatRow where
  chat_id : String
  last_open_time : Int              -- COALESCE(b.lastOpenTime, 0)
  last_open_time_raw : Option Int   -- b.lastOpenTime as the ORDER BY sees it
  thread_title : Option String
  thread_type : Option String
  is_low_priority : Option Int
  is_marked_unread : Option Int
  is_archived_upto : Option Int
  tags : Option String
  last_message_time : Option Int
  total_messages : Nat
deriving DecidableEq

/-- SELECT MAX(hsOrder) FROM mx_room_messages WHERE roomID = ? AND
type != HIDDEN — NULL hsOrder values are ignored by MAX, and a NULL type
fails the comparison (type is modelled non-null). -/
def latestHsOrder (store : Store) (chat_id : String) : Option Int :=
  ((store.messages.filter (fun m => m.roomID = chat_id && m.type ≠ "HIDDEN")).filterMap
    (·.hsOrder)).max?

/-- The per-row body of the apply_inbox_filters loop (append = true,
continue without appending = false). -/
def inboxKeeps (store : Store) (row : ChatRow) : Bool :=
  if strEnds row.chat_id ":beeper.local" || strEnds row.chat_id ":beeper.com" then false
  else
    let is_archived_upto := row.is_archived_upto.isSome
    let is_favorited :=
      match row.tags with
      | some s => s ≠ "" && strContains s "favourite"
      | none => false
    if is_favorited then true
    else if !is_archived_upto then true
    else
      match store.threads.find? (fun t => t.threadID = row.chat_id) with
      | none => false
      | some t =>
        match t.archivedUpToOrder with
        | none => true
        | some archived_up_to_order =>
          match latestHsOrder store row.chat_id with
          | none => false
          | some latest_hs_order => decide (archived_up_to_order < latest_hs_order)

def apply_inbox_filters (store : Store) (rows : List ChatRow) : List ChatRow :=
  rows.filter (inboxKeeps store)

/-! ## fetch_chats -/

/-- Building one base-query row from a thread row and the store. -/
def baseRow (store : Store) (t : ThreadRow) : ChatRow :=
  let raw := (store.breadcrumbs.find? (fun b => b.1 = t.threadID)).map (·.2)
  { chat_id := t.threadID,
    last_open_time := raw.getD 0,
    last_open_time_raw := raw,
    thread_title := t.title,
    thread_type := t.threadType,
    is_low_priority := t.isLowPriority,
    is_marked_unread := t.isMarkedUnread,
    is_archived_upto := t.isArchivedUpto,
    tags := t.tags,
    last_message_time :=
      ((store.messages.filter
        (fun m => m.roomID = t.threadID && MESSAGE_TYPES_RETURN.contains m.type)).map
        (·.timestamp)).max?,
    total_messages :=
      (store.messages.filter
        (fun m => m.roomID = t.threadID && MESSAGE_TYPES_EXTENDED.contains m.type)).length }

/-- The label-specific WHERE conditions of fetch_chats. SQL three-valued
logic: a comparison or LIKE on NULL is not true, so a NULL json field fails
every positive condition. SQLite LIKE is ASCII case-insensitive. -/
def condPred (label : ChatLabel) (include_low_priority : Bool) (r : ChatRow) : Bool :=
  match label with
  | .inbox => r.is_low_priority = some 0
  | .archive =>
    r.is_archived_upto.isSome
      && (match r.tags with | some s => !strContains (strLower s) "favourite" | none => false)
      && (include_low_priority || r.is_low_priority = some 0)
  | .favourite =>
    (match r.tags with | some s => strContains (strLower s) "favourite" | none => false)
      && (include_low_priority || r.is_low_priority = some 0)
  | .all | .unread => include_low_priority || r.is_low_priority = some 0

/-- The three ORDER BY variants (unknown sort_by falls back to
latest_message). SQLite sorts NULL first ascending, last descending. -/
def chatKeyLe (sort_by : String) (a b : ChatRow) : Bool :=
  if sort_by = "last_active" then
    match a.last_open_time_raw, b.last_open_time_raw with
    | some x, some y => decide (y ≤ x)
    | some _, none => true
    | none, some _ => false
    | none, none => true
  else if sort_by = "name" then
    match a.thread_title, b.thread_title with
    | none, _ => true
    | some _, none => false
    | some x, some y => decide (x ≤ y)
  else
    -- COALESCE(last_message_time, b.lastOpenTime, 0) DESC
    let key : ChatRow → Int := fun r =>
      match r.last_message_time with
      | some v => v
      | none => r.last_open_time_raw.getD 0
    decide (key b ≤ key a)

def chatSortRel (sort_by : String) (a b : ChatRow) : Prop := chatKeyLe sort_by a b = true

instance : DecidableRel (chatSortRel sort_by) :=
  fun a b => inferInstanceAs (Decidable (_ = true))

/-- is_group: thread_type == "group" when thread_type is truthy, else the
identifier heuristic. -/
def isGroupRow (r : ChatRow) : Bool :=
  match r.thread_type with
  | some tt =>
    if tt ≠ "" then tt = "group"
    else strContains r.chat_id "@g.us" || strContains (strLower r.chat_id) "group"
  | none => strContains r.chat_id "@g.us" || strContains (strLower r.chat_id) "group"

def truncPreview (msg : Message) : Message :=
  if msg.text.length > 100 then { msg with text := (⟨msg.text.data.take 100⟩ : String) ++ "..." }
  else msg

def recentMessagesOf (env : Env) (store : Store) (chat_id : String) (limit : Nat) : List Message :=
  if limit > 0 then
    (((((store.messages.filter
        (fun m => m.roomID = chat_id && MESSAGE_TYPES_RETURN.contains m.type
          && m.message.isSome)).insertionSort msgDescRel).take limit).reverse).map
      (fun m => truncPreview (buildMessageFromRow env store (rowOfMsg m) chat_id)))
  else []

/-- Most-active-first participant names for a group chat: GROUP BY sender,
ORDER BY COUNT(*) DESC LIMIT max_participants, modelled as a stable sort of
the distinct senders in first-appearance order. -/
def participantsOf (env : Env) (store : Store) (chat_id : String) (max_participants : Nat) :
    List String :=
  let roomMsgs := store.messages.filter
    (fun m => m.roomID = chat_id && MESSAGE_TYPES_RETURN.contains m.type)
  let senders := (roomMsgs.map (·.senderContactID)).eraseDups
  let counted := senders.map (fun s => (s, (roomMsgs.filter (fun m => m.senderContactID = s)).length))
  let le : String × Nat → String × Nat → Prop := fun a b => (decide (b.2 ≤ a.2) : Bool) = true
  have : DecidableRel le := fun a b => inferInstanceAs (Decidable (_ = true))
  ((counted.insertionSort le).take max_participants).map
    (fun p =>
      let is_sender_me := p.1 = "user" || (strContains p.1 "@" && strContains p.1 "beeper.com")
      get_contact_name store p.1 chat_id is_sender_me)

def fetch_chats (env : Env) (store : Store) (platform_dbs : List PlatformDb)
    (label : ChatLabel) (include_low_priority : Bool) (limit : Nat)
    (recent_messages_limit : Nat) (sort_by : String) (max_participants : Nat) : List Chat :=
  let rows0 := (store.threads.map (baseRow store)).filter (condPred label include_low_priority)
  let sorted := rows0.insertionSort (chatSortRel sort_by)
  -- LIMIT is applied in SQL only for non-inbox labels
  let rows1 := if label = ChatLabel.inbox then sorted else sorted.take limit
  let rows2 := if label = ChatLabel.inbox then apply_inbox_filters store rows1 else rows1
  let chats := rows2.filterMap (fun r =>
    let platform := resolve_platform_from_room_id r.chat_id
    let is_group := isGroupRow r
    -- skip WhatsApp communities in inbox
    if label = ChatLabel.inbox && is_group && strLower platform = "whatsapp"
        && check_community r.chat_id platform_dbs then
      none
    else
      let recent_messages := recentMessagesOf env store r.chat_id recent_messages_limit
      let last_activity_timestamp :=
        match r.last_message_time with
        | some v => if v ≠ 0 then v else r.last_open_time
        | none => r.last_open_time
      let unread := match r.is_marked_unread with | some v => v ≠ 0 | none => false
      let participants :=
        if is_group && max_participants > 0 then
          participantsOf env store r.chat_id max_participants
        else []
      let chat := buildChatFromId env store platform_dbs r.chat_id
        (some (nanoseconds_to_iso env last_activity_timestamp))
      some { chat with unread := unread, participants := participants,
                       recent_messages := recent_messages })
  if label = ChatLabel.inbox then chats.take limit else chats

/-! ## get_messages_by_person -/

def isGroupChatId (chat_id : String) : Bool :=
  strContains (strLower chat_id) "group" || strContains chat_id "@g.us"

/-- The chat_type continue conditions inside the grouping loop. -/
def chatTypeSkips (chat_type : Option String) (chat_id : String) : Bool :=
  match chat_type with
  | some ct =>
    if ct ≠ "" then
      (ct = "dm" && isGroupChatId chat_id) || (ct = "group" && !isGroupChatId chat_id)
    else false
  | none => false

/-- Ordered-dict append: push the message onto the list of its chat,
keeping first-encountered chat order. -/
def appendToGroup (acc : List (String × List Message)) (chat_id : String) (msg : Message) :
    List (String × List Message) :=
  match acc with
  | [] => [(chat_id, [msg])]
  | (c, ms) :: rest =>
    if c = chat_id then (c, ms ++ [msg]) :: rest
    else (c, ms) :: appendToGroup rest chat_id msg

def groupLen (acc : List (String × List Message)) (chat_id : String) : Nat :=
  match acc.find? (fun p => p.1 = chat_id) with
  | some p => p.2.length
  | none => 0

/-- The grouping loop of get_messages_by_person. After appending a message
the code checks len(chat_messages[chat_id]) >= limit and then executes
`break` — stopping the whole iteration, not just this chat. -/
def groupLoop (env : Env) (store : Store) (chat_type : Option String) (limit : Nat) :
    List MsgRow → List (String × List Message) → List (String × List Message)
  | [], acc => acc
  | m :: rest, acc =>
    if chatTypeSkips chat_type m.roomID then groupLoop env store chat_type limit rest acc
    else
      let msg := buildMessageFromRow env store (rowOfMsg m) m.roomID
      let acc2 := appendToGroup acc m.roomID msg
      if groupLen acc2 m.roomID ≥ limit then acc2
      else groupLoop env store chat_type limit rest acc2

/-- Step 1: DISTINCT (senderContactID, roomID) pairs resolved to names;
keep the ids whose resolved name contains the person name
(case-insensitive). -/
def matchingSenderIds (store : Store) (person_name : String) : List String :=
  let pairs := ((store.messages.filter
    (fun m => m.senderContactID ≠ "user" && MESSAGE_TYPES_EXTENDED.contains m.type)).map
    (fun m => (m.senderContactID, m.roomID))).eraseDups
  pairs.filterMap (fun p =>
    if strContains (strLower (get_contact_name store p.1 p.2 false)) (strLower person_name) then
      some p.1
    else none)

def personMsgPred (env : Env) (sender_ids : List String) (platform : Option String)
    (days_back : Option Int) (m : MsgRow) : Bool :=
  sender_ids.contains m.senderContactID && MESSAGE_TYPES_EXTENDED.contains m.type
    && (match platform with
        | some pf => if pf ≠ "" then strContains (strLower m.roomID) (strLower pf) else true
        | none => true)
    && (match days_back with
        | some d => if d ≠ 0 then decide (env.nowMs - d * 86400000 < m.timestamp) else true
        | none => true)

def get_messages_by_person (env : Env) (store : Store) (platform_dbs : List PlatformDb)
    (person_name : String) (limit : Nat) (platform : Option String)
    (chat_type : Option String) (days_back : Option Int) (include_context : Bool) :
    List ChatSearchResult :=
  let matching_sender_ids := matchingSenderIds store person_name
  if matching_sender_ids.isEmpty then []
  else
    let ordered := (store.messages.filter
      (personMsgPred env matching_sender_ids platform days_back)).insertionSort msgDescRel
    let chat_messages := groupLoop env store chat_type limit ordered []
    chat_messages.map (fun p =>
      let last_activity := (p.2.head?).map (·.timestamp)
      let chat := buildChatFromId env store platform_dbs p.1 last_activity
      let final_messages :=
        if include_context && !p.2.isEmpty then
          match (p.2.head?).bind (fun m0 => env.parseIso (m0.timestamp.replace "Z" "+00:00")) with
          | some first_msg_timestamp =>
            let context_messages := getContextMessages env store p.1 first_msg_timestamp
            if context_messages.isEmpty then p.2 else context_messages
          | none => p.2  -- CPython would raise ValueError here; never exercised below
        else p.2
      { chat := chat, messages := final_messages })

/-! ## get_media_attachment_content (queries.py) and the get_media_attachment
tool wrapper (server.py) -/

/-- The result dictionaries returned by attachment resolution; absent keys
are none. The outer Option of filename / attachment_url distinguishes an
absent key from a stored falsy value. -/
structure AttDict where
  error : Option String := none
  uri : Option String := none
  type : Option String := none
  mime_type : Option String := none
  base64 : Option String := none
  filepath : Option String := none
  filename : Option (Option String) := none
  attachment_url : Option (Option String) := none
deriving DecidableEq

/-- The I/O environment of attachment resolution: primary database
presence, the eventID → message-column lookup, json.loads, the filesystem
and the PIL pipeline (none = the library call raised). -/
structure AttEnv where
  dbExists : Bool
  lookupMessage : String → Option (Option String)
  jsonLoads : String → Option JVal
  fileExists : String → Bool
  searchMedia : String → Option String
  processImage : String → Option String
  readFileB64 : String → Option String

def dropChars (s : String) (n : Nat) : String := ⟨s.data.drop n⟩

/-- str.rsplit("/", 1) followed by unpacking into exactly two names: fails
when the string has no slash. -/
def rsplitSlash (s : String) : Option (String × String) :=
  if s.data.contains '/' then
    some (⟨(((s.data.reverse).dropWhile (fun c => c ≠ '/')).drop 1).reverse⟩,
          ⟨((s.data.reverse).takeWhile (fun c => c ≠ '/')).reverse⟩)
  else none

/-- The URI validation prefix of get_media_attachment_content: both failure
cases raise ValueError out of the function. -/
def parseAttachmentUri (attachment_uri : String) : Except String (String × Int) :=
  if !strStarts attachment_uri "beeper://attachment/" then
    .error "Invalid attachment URI format - must start with beeper://attachment/"
  else
    match rsplitSlash (dropChars attachment_uri 20) with
    | none => .error "Invalid attachment URI format - missing or bad index"
    | some (message_id, idxStr) =>
      match pyParseInt idxStr with
      | none => .error "Invalid attachment URI format - missing or bad index"
      | some i => .ok (message_id, i)

/-- A truthy url / fallback-id field as an optional string; a truthy
non-string raises when a string method is called on it. -/
def truthyStrField (v : Option JVal) : Except String (Option String) :=
  match v with
  | some w =>
    if pyTruthy w then
      match w with
      | .jstr s => .ok (some s)
      | _ => .error "AttributeError"
    else .ok none
  | none => .ok none

def afterFirst (c : Char) (l : List Char) : List Char := (l.dropWhile (fun d => d ≠ c)).drop 1

/-- The body of the big try block of get_media_attachment_content; a
returned .error is an exception reaching the outer except handler. -/
def attTryBody (env : AttEnv) (attachment_uri message_id : String) (attachment_index : Int)
    (optimize_for_context : Bool) : Except String AttDict :=
  let notFound : AttDict :=
    { error := some ("Message not found or empty: " ++ message_id), uri := some attachment_uri }
  match env.lookupMessage message_id with
  | none => .ok notFound
  | some none => .ok notFound
  | some (some payload) =>
    if payload = "" then .ok notFound
    else
      match env.jsonLoads payload with
      | none => .error "JSONDecodeError"
      | some (.jobj fields) =>
        let itemsV : JVal :=
          match jget fields "attachments" with
          | some w => if pyTruthy w then w else .jarr []
          | none => .jarr []
        match itemsV with
        | .jarr items =>
          if 0 ≤ attachment_index ∧ attachment_index < items.length then
            let attV0 := items.getD attachment_index.toNat JVal.jnull
            let attV := if pyTruthy attV0 then attV0 else .jobj []
            match attV with
            | .jobj att =>
              match mimeOf att with
              | .error _ => .error "AttributeError"
              | .ok mime =>
                let filename : Option String :=
                  (pyOrJ (jget att "fileName") (jget att "filename")).bind
                    (fun v => if pyTruthy v then some (pyStr v) else none)
                let att_type := infer_type mime
                let urlV := pyOrJ (jget att "srcURL") (pyOrJ (jget att "url") (jget att "href"))
                let mediaIdV := pyOrJ (jget att "id") (jget att "mxc")
                if !(match urlV with | some v => pyTruthy v | none => false)
                    && !(match mediaIdV with | some v => pyTruthy v | none => false) then
                  .ok { error := some "Attachment has no URL", uri := some attachment_uri }
                else
                  match truthyStrField urlV with
                  | .error e => .error e
                  | .ok url =>
                    match url with
                    | some u =>
                      if strStarts (strLower u) "data:image/" && strContains u ";base64," then
                        .ok { type := some "image",
                              mime_type := some ⟨(afterFirst ':' u.data).takeWhile (fun c => c ≠ ';')⟩,
                              base64 := some ⟨afterFirst ',' u.data⟩ }
                      else attResolveFile env attachment_uri att_type mime filename url mediaIdV
                        optimize_for_context
                    | none => attResolveFile env attachment_uri att_type mime filename url mediaIdV
                        optimize_for_context
            | _ => .error "AttributeError"
          else .ok { error := some "Attachment index out of range", uri := some attachment_uri }
        | _ => .ok { error := some "Attachment index out of range", uri := some attachment_uri }
      | some _ => .error "AttributeError"  -- data.get on non-dict json.loads result
where
  attResolveFile (env : AttEnv) (attachment_uri att_type mime : String)
      (filename : Option String) (url : Option String) (mediaIdV : Option JVal)
      (optimize_for_context : Bool) : Except String AttDict :=
    let direct : Option String :=
      match url with
      | some u =>
        if strStarts (strLower u) "file://" then
          if env.fileExists (dropChars u 7) then some (dropChars u 7) else none
        else if env.fileExists u then some u else none
      | none => none
    match (match direct with
           | some p => Except.ok (some p)
           | none =>
             -- fallback: search the media dir by last path segment or media id
             let cand0 : Option String :=
               match url with
               | some u => some ⟨((u.data.reverse.takeWhile (fun c => c ≠ '/')).reverse).takeWhile
                   (fun c => c ≠ '?')⟩
               | none => none
             match (match cand0 with
                    | some c => if c ≠ "" then Except.ok (some c) else truthyStrField mediaIdV
                    | none => truthyStrField mediaIdV) with
             | Except.error e => Except.error e
             | Except.ok none => Except.ok none
             | Except.ok (some c) => Except.ok (env.searchMedia c)) with
    | Except.error e => .error e
    | Except.ok fp =>
      match fp with
      | some p =>
        if env.fileExists p then
          if att_type = "image" && optimize_for_context then
            match env.processImage p with
            | some b =>
              .ok { type := some "image", mime_type := some "image/jpeg", base64 := some b }
            | none =>
              .ok { error := some "Failed to process media file", uri := some attachment_uri }
          else if att_type = "image" || att_type = "audio" then
            match env.readFileB64 p with
            | some b =>
              .ok { type := some att_type, mime_type := some mime, base64 := some b,
                    filename := some filename }
            | none =>
              .ok { error := some "Failed to process media file", uri := some attachment_uri }
          else .ok { type := some att_type, mime_type := some mime, filepath := some p }
        else
          .ok { error := some "Media file not found on disk", type := some att_type,
                mime_type := some mime, attachment_url := some url, uri := some attachment_uri }
      | none =>
        .ok { error := some "Media file not found on disk", type := some att_type,
              mime_type := some mime, attachment_url := some url, uri := some attachment_uri }

/-- get_media_attachment_content: a malformed URI raises ValueError; the
rest of the function returns result dictionaries, converting any exception
inside the connection block into a Database-error dictionary. -/
def get_media_attachment_content (env : AttEnv) (attachment_uri : String)
    (optimize_for_context : Bool) : Except PyExn AttDict :=
  match parseAttachmentUri attachment_uri with
  | .error m => .error (.valueError m)
  | .ok (message_id, attachment_index) =>
    if !env.dbExists then
      .ok { error := some "Database not found", uri := some attachment_uri }
    else
      match attTryBody env attachment_uri message_id attachment_index optimize_for_context with
      | .ok d => .ok d
      | .error e => .ok { error := some ("Database error: " ++ e), uri := some attachment_uri }

/-- The get_media_attachment tool of server.py: catches every exception and
returns the tagged error dictionary with the original URI. -/
def get_media_attachment (env : AttEnv) (attachment_uri : String)
    (optimize_for_context : Bool) : AttDict :=
  match get_media_attachment_content env attachment_uri optimize_for_context with
  | .ok d => d
  | .error e => { error := some (pyStrExn e), uri := some attachment_uri }

/-! ## Shared helper lemmas and concrete environments -/

theorem find?_eq_head?_filter {α : Type} (p : α → Bool) (l : List α) :
    l.find? p = (l.filter p).head? := by
  induction l with
  | nil => rfl
  | cons a t ih =>
    simp only [List.find?, List.filter]
    cases h : p a
    · exact ih
    · rfl

/-- A json.loads stub that fails on every input (never consulted on the
code paths it is used with). -/
def noLoads : String → Option JVal := fun _ => none

/-- A concrete environment whose library calls all fail or are constant. -/
def envN : Env :=
  { jsonLoads := noLoads, fmtTime := fun _ => none, nowIso := "NOW", nowMs := 0,
    parseIso := fun _ => none }

/-! ## C9: resolve_platform_from_room_id -/

/-- The spec reading of resolvePlatform: the label of the first entry of the
fixed ordered table whose keyword occurs in the lowered identifier, with the
Beeper / Unknown fallback. -/
def firstPlatformMatch (room_id : String) : String :=
  match (platformTable.filter (fun kv => strContains (strLower room_id) kv.1)).head? with
  | some kv => kv.2
  | none => if strContains room_id "beeper.local" then "Beeper" else "Unknown"

def platformLabels : List String :=
  ["WhatsApp", "Telegram", "Signal", "LinkedIn", "Discord", "Slack", "Facebook",
   "Instagram", "iMessage", "Twitter", "Beeper", "Unknown"]

set_option maxRecDepth 4000 in
theorem platformTable_labels : ∀ kv ∈ platformTable, kv.2 ∈ platformLabels := by decide

/-- C9: resolve_platform_from_room_id is total and deterministic — on every
string it returns the label of the first matching entry of the fixed ordered
keyword table (case-insensitive substring match), falling back to Beeper
exactly when the identifier contains beeper.local and to Unknown otherwise;
its output always lies in the fixed label set. -/
theorem resolve_platform_first_match_total (room_id : String) :
    resolve_platform_from_room_id room_id = firstPlatformMatch room_id ∧
    resolve_platform_from_room_id room_id ∈ platformLabels := by
  have hsplit : resolve_platform_from_room_id room_id =
      match platformTable.find? (fun kv => strContains (strLower room_id) kv.1) with
      | some kv => kv.2
      | none => if strContains room_id "beeper.local" then "Beeper" else "Unknown" := rfl
  constructor
  · unfold firstPlatformMatch
    rw [hsplit, find?_eq_head?_filter]
  · rw [hsplit]
    cases hf : platformTable.find? (fun kv => strContains (strLower room_id) kv.1) with
    | some kv => exact platformTable_labels kv (List.mem_of_find?_eq_some hf)
    | none =>
      by_cases hb : strContains room_id "beeper.local" = true <;> simp [hb, platformLabels]

/-! ## C8: nanoseconds_to_iso magnitude classification -/

/-- C8: nanoseconds_to_iso classifies the raw epoch by magnitude
(> 1e18 ns, > 1e15 µs, > 1e12 ms, else s); for every in-range encoding of a
wall-clock instant s (with sub-unit remainder r) the seconds value handed to
the formatter is within one second of s; and when the formatter raises
(overflow / invalid input) the function returns the current time. -/
theorem nanoseconds_to_iso_spec :
    (∀ (env : Env) (t : Int), env.fmtTime (toSeconds t) = none →
      nanoseconds_to_iso env t = env.nowIso) ∧
    (∀ (env : Env) (t : Int) (out : String), env.fmtTime (toSeconds t) = some out →
      nanoseconds_to_iso env t = out) ∧
    (∀ s : Int, s ≤ 10 ^ 12 → toSeconds s = (s : ℚ)) ∧
    (∀ s r : Int, 0 ≤ r → r < 1000 → 10 ^ 12 < 1000 * s + r → 1000 * s + r ≤ 10 ^ 15 →
      |toSeconds (1000 * s + r) - (s : ℚ)| < 1) ∧
    (∀ s r : Int, 0 ≤ r → r < 1000000 →
      10 ^ 15 < 1000000 * s + r → 1000000 * s + r ≤ 10 ^ 18 →
      |toSeconds (1000000 * s + r) - (s : ℚ)| < 1) ∧
    (∀ s r : Int, 0 ≤ r → r < 1000000000 → 10 ^ 18 < 1000000000 * s + r →
      |toSeconds (1000000000 * s + r) - (s : ℚ)| < 1) := by
  refine ⟨?_, ?_, ?_, ?_, ?_, ?_⟩
  · intro env t h
    unfold nanoseconds_to_iso
    rw [h]
    rfl
  · intro env t out h
    unfold nanoseconds_to_iso
    rw [h]
    rfl
  · intro s hs
    have h1 : ¬ (s > 10 ^ 15) := by omega
    have h2 : ¬ (s > 10 ^ 12) := by omega
    simp only [toSeconds, if_neg h1, if_neg h2]
  · intro s r h0 h1 h2 h3
    have hx1 : ¬ (1000 * s + r > 10 ^ 15) := by omega
    simp only [toSeconds, if_neg hx1, if_pos h2]
    have he : ((1000 * s + r : Int) : ℚ) / 1000 - (s : ℚ) = (r : ℚ) / 1000 := by
      push_cast
      ring
    rw [he, abs_of_nonneg (div_nonneg (by exact_mod_cast h0) (by norm_num)),
      div_lt_one (by norm_num)]
    exact_mod_cast h1
  · intro s r h0 h1 h2 h3
    have hx2 : ¬ (1000000 * s + r > 10 ^ 18) := by omega
    simp only [toSeconds, if_pos h2, if_neg hx2]
    have he : ((1000000 * s + r : Int) : ℚ) / 1000000 - (s : ℚ) = (r : ℚ) / 1000000 := by
      push_cast
      ring
    rw [he, abs_of_nonneg (div_nonneg (by exact_mod_cast h0) (by norm_num)),
      div_lt_one (by norm_num)]
    exact_mod_cast h1
  · intro s r h0 h1 h2
    have hx1 : 1000000000 * s + r > 10 ^ 15 := by omega
    simp only [toSeconds, if_pos hx1, if_pos h2]
    have he : ((1000000000 * s + r : Int) : ℚ) / 1000000000 - (s : ℚ) = (r : ℚ) / 1000000000 := by
      push_cast
      ring
    rw [he, abs_of_nonneg (div_nonneg (by exact_mod_cast h0) (by norm_num)),
      div_lt_one (by norm_num)]
    exact_mod_cast h1

theorem nanoseconds_to_iso_spec_witness :
    (0 : Int) ≤ 500 ∧ (500 : Int) < 1000 ∧
    (10 ^ 12 : Int) < 1000 * 1700000000 + 500 ∧ (1000 * 1700000000 + 500 : Int) ≤ 10 ^ 15 ∧
    |toSeconds (1000 * 1700000000 + 500) - (1700000000 : ℚ)| < 1 :=
  ⟨by norm_num, by norm_num, by norm_num, by norm_num,
   nanoseconds_to_iso_spec.2.2.2.1 1700000000 500 (by norm_num) (by norm_num) (by norm_num)
     (by norm_num)⟩

/-! ## C3: extract_message_text on non-JSON-looking payloads -/

/-- C3 counterexample: for a non-empty payload that does not look like JSON
and a non-TEXT declared type, the function returns the payload verbatim, not
the bracketed placeholder the claim demands. -/
theorem extract_message_text_placeholder_counterexample :
    extract_message_text noLoads "hi" (some "IMAGE") = "hi" ∧ "hi" ≠ "[IMAGE]" := by
  constructor
  · rfl
  · decide

/-- C3 (amended): a payload that does not look like a JSON object or array
is returned verbatim for every declared type (the bracketed-placeholder
branch is unreachable because an empty payload already returns the empty
string at entry), and the empty payload yields the empty string. -/
theorem extract_message_text_plain_spec (jsonLoadsF : String → Option JVal)
    (message_type : Option String) (s : String) (h : looksLikeJson s = false) :
    extract_message_text jsonLoadsF s message_type = if s = "" then "" else s := by
  by_cases hs : s = ""
  · subst hs
    simp [extract_message_text]
  · rw [if_neg hs]
    unfold extract_message_text
    rw [if_neg hs]
    simp only [h, Bool.false_eq_true, if_false]
    split <;> simp [hs]

theorem extract_message_text_plain_spec_witness :
    looksLikeJson "plain words" = false ∧
    extract_message_text noLoads "plain words" (some "VIDEO") =
      (if "plain words" = "" then "" else "plain words") :=
  ⟨by decide, extract_message_text_plain_spec noLoads (some "VIDEO") "plain words" (by decide)⟩

/-! ## C1: malformed attachment URIs -/

/-- An attachment environment with no database and failing library calls. -/
def attEnvTrivial : AttEnv :=
  { dbExists := false, lookupMessage := fun _ => none, jsonLoads := fun _ => none,
    fileExists := fun _ => false, searchMedia := fun _ => none,
    processImage := fun _ => none, readFileB64 := fun _ => none }

/-- C1 counterexample: on the malformed URI bogus, get_media_attachment_content
raises ValueError (an exception escapes it) instead of returning a tagged
error result. -/
theorem get_media_attachment_content_raises_counterexample :
    get_media_attachment_content attEnvTrivial "bogus" true =
      .error (.valueError "Invalid attachment URI format - must start with beeper://attachment/") ∧
    ∀ d, get_media_attachment_content attEnvTrivial "bogus" true ≠ .ok d := by
  constructor
  · rfl
  · intro d h
    exact Except.noConfusion ((rfl :
      get_media_attachment_content attEnvTrivial "bogus" true =
        .error (.valueError "Invalid attachment URI format - must start with beeper://attachment/")
      ).symm.trans h)

/-- C1 (amended): a malformed URI (one failing the beeper://attachment/
prefix check, or whose trailing segment does not parse as an integer) makes
get_media_attachment_content raise ValueError; the get_media_attachment tool
wrapper in server.py catches every exception and returns a tagged error
result carrying the original URI, so no exception passes the tool boundary. -/
theorem get_media_attachment_malformed_uri_spec (env : AttEnv) (uri : String) (opt : Bool)
    (m : String) (h : parseAttachmentUri uri = .error m) :
    get_media_attachment_content env uri opt = .error (.valueError m) ∧
    (get_media_attachment env uri opt).error = some m ∧
    (get_media_attachment env uri opt).uri = some uri := by
  unfold get_media_attachment get_media_attachment_content
  rw [h]
  exact ⟨rfl, rfl, rfl⟩

theorem get_media_attachment_malformed_uri_spec_witness :
    (get_media_attachment attEnvTrivial "beeper://attachment/x" false).error =
      some "Invalid attachment URI format - missing or bad index" ∧
    (get_media_attachment attEnvTrivial "beeper://attachment/x" false).uri =
      some "beeper://attachment/x" := by
  have h := get_media_attachment_malformed_uri_spec attEnvTrivial "beeper://attachment/x" false
    "Invalid attachment URI format - missing or bad index" (by rfl)
  exact ⟨h.2.1, h.2.2⟩

/-! ## C7: extract_message_attachments -/

/-- The zero-based positions of the dict entries of a JSON array, starting
the count at i: the indices enumerate(items) assigns to the entries the
comprehension keeps. -/
def dictIndicesFrom : Nat → List JVal → List Nat
  | _, [] => []
  | i, (.jobj _) :: rest => i :: dictIndicesFrom (i + 1) rest
  | i, _ :: rest => dictIndicesFrom (i + 1) rest

theorem starts_head {s p : String} {c : Char} {cr : List Char} (hp : p.data = c :: cr)
    (h : strStarts s p = true) : ∃ t, s.data = c :: t := by
  unfold strStarts at h
  rw [hp] at h
  cases hs : s.data with
  | nil => rw [hs] at h; simp [List.isPrefixOf] at h
  | cons b bs =>
    rw [hs] at h
    simp [List.isPrefixOf] at h
    exact ⟨bs, by rw [h.1]⟩

theorem starts_excl {s p q : String} {c d : Char} {cr dr : List Char}
    (hp : p.data = c :: cr) (hq : q.data = d :: dr) (hne : c ≠ d) :
    ¬(strStarts s p = true ∧ strStarts s q = true) := by
  rintro ⟨h1, h2⟩
  obtain ⟨t1, ht1⟩ := starts_head hp h1
  obtain ⟨t2, ht2⟩ := starts_head hq h2
  rw [ht1] at ht2
  exact hne (List.head_eq_of_cons_eq ht2)

theorem infer_type_spec (mime : String) :
    (infer_type mime = "image" ↔ strStarts mime "image/" = true) ∧
    (infer_type mime = "audio" ↔ strStarts mime "audio/" = true) ∧
    (infer_type mime = "video" ↔ strStarts mime "video/" = true) ∧
    (infer_type mime = "file" ↔
      (strStarts mime "image/" = false ∧ strStarts mime "audio/" = false ∧
       strStarts mime "video/" = false)) := by
  have e1 := starts_excl (s := mime) (p := "image/") (q := "audio/") rfl rfl (by decide)
  have e2 := starts_excl (s := mime) (p := "image/") (q := "video/") rfl rfl (by decide)
  have e3 := starts_excl (s := mime) (p := "audio/") (q := "video/") rfl rfl (by decide)
  cases h1 : strStarts mime "image/" <;> cases h2 : strStarts mime "audio/" <;>
    cases h3 : strStarts mime "video/" <;> simp_all [infer_type]

theorem buildAttsGo_spec (mid : String) (items : List JVal) :
    ∀ (i : Nat) (atts : List MessageAttachment), buildAttsGo mid i items = .ok atts →
      atts.map (fun a => a.uri) =
        (dictIndicesFrom i items).map
          (fun k => "beeper://attachment/" ++ mid ++ "/" ++ toString k) ∧
      ∀ a ∈ atts, a.type = infer_type a.mime_type := by
  induction items with
  | nil =>
    intro i atts h
    simp only [buildAttsGo] at h
    cases h
    exact ⟨rfl, by intro a ha; cases ha⟩
  | cons x rest ih =>
    intro i atts h
    cases x with
    | jobj d =>
      simp only [buildAttsGo] at h
      cases hm : mimeOf d with
      | error e => rw [hm] at h; cases h
      | ok mime =>
        rw [hm] at h
        cases hrest : buildAttsGo mid (i + 1) rest with
        | error e => rw [hrest] at h; cases h
        | ok atts' =>
          rw [hrest] at h
          simp only [Except.map, Except.ok.injEq] at h
          obtain ⟨h1, h2⟩ := ih (i + 1) atts' hrest
          subst h
          refine ⟨?_, ?_⟩
          · simp only [List.map_cons, dictIndicesFrom, h1]
          · intro a ha
            rcases List.mem_cons.mp ha with rfl | ha'
            · rfl
            · exact h2 a ha'
    | jnull =>
      simp only [buildAttsGo] at h
      simpa [dictIndicesFrom] using ih (i + 1) atts h
    | jbool b =>
      simp only [buildAttsGo] at h
      simpa [dictIndicesFrom] using ih (i + 1) atts h
    | jnum q =>
      simp only [buildAttsGo] at h
      simpa [dictIndicesFrom] using ih (i + 1) atts h
    | jstr s =>
      simp only [buildAttsGo] at h
      simpa [dictIndicesFrom] using ih (i + 1) atts h
    | jarr l =>
      simp only [buildAttsGo] at h
      simpa [dictIndicesFrom] using ih (i + 1) atts h

/-- A json.loads stub returning a JSON array for the payload used in the
counterexample (json.loads("[]") is a Python list). -/
def loaderArr : String → Option JVal := fun s =>
  if s = "[]" then some (.jarr []) else none

/-- C7 counterexample: on the valid-JSON payload [] (attachments absent),
extract_message_attachments raises AttributeError (list.get does not exist)
instead of returning the empty list. -/
theorem extract_message_attachments_nonobject_counterexample :
    extract_message_attachments loaderArr "[]" "m1" = .error .attributeError ∧
    extract_message_attachments loaderArr "[]" "m1" ≠ .ok [] := by
  constructor
  · rfl
  · intro h
    exact Except.noConfusion ((rfl :
      extract_message_attachments loaderArr "[]" "m1" = .error .attributeError).symm.trans h)

/-- C7 (amended): extract_message_attachments returns the empty list on an
empty payload, on malformed JSON and on a parsed object whose attachments
key is absent or falsy; on a parsed object carrying an attachments array it
yields (when it returns at all — a truthy non-string mime field raises) one
attachment per dict entry, whose URIs are exactly
beeper://attachment/messageId/i for the zero-based array positions i of the
dict entries in order, and whose coarse type is image, audio or video
exactly when the MIME string starts with that prefix and a slash, else file.
A payload parsing to non-object JSON instead raises AttributeError, absorbed
by the callers. -/
theorem extract_message_attachments_spec :
    (∀ (jsonLoadsF : String → Option JVal) (mid : String),
      extract_message_attachments jsonLoadsF "" mid = .ok []) ∧
    (∀ (jsonLoadsF : String → Option JVal) (p mid : String), p ≠ "" → jsonLoadsF p = none →
      extract_message_attachments jsonLoadsF p mid = .ok []) ∧
    (∀ (jsonLoadsF : String → Option JVal) (p mid : String) fields, p ≠ "" →
      jsonLoadsF p = some (.jobj fields) →
      (jget fields "attachments" = none ∨
       ∃ w, jget fields "attachments" = some w ∧ pyTruthy w = false) →
      extract_message_attachments jsonLoadsF p mid = .ok []) ∧
    (∀ (jsonLoadsF : String → Option JVal) (p mid : String) fields items, p ≠ "" →
      jsonLoadsF p = some (.jobj fields) →
      jget fields "attachments" = some (.jarr items) →
      ∀ atts, extract_message_attachments jsonLoadsF p mid = .ok atts →
        atts.map (fun a => a.uri) =
          (dictIndicesFrom 0 items).map
            (fun k => "beeper://attachment/" ++ mid ++ "/" ++ toString k) ∧
        ∀ a ∈ atts,
          (a.type = "image" ↔ strStarts a.mime_type "image/" = true) ∧
          (a.type = "audio" ↔ strStarts a.mime_type "audio/" = true) ∧
          (a.type = "video" ↔ strStarts a.mime_type "video/" = true) ∧
          (a.type = "file" ↔
            (strStarts a.mime_type "image/" = false ∧ strStarts a.mime_type "audio/" = false ∧
             strStarts a.mime_type "video/" = false))) := by
  refine ⟨?_, ?_, ?_, ?_⟩
  · intro L mid
    rfl
  · intro L p mid hp hL
    unfold extract_message_attachments
    rw [if_neg hp, hL]
  · intro L p mid fields hp hL hg
    unfold extract_message_attachments
    rw [if_neg hp, hL]
    rcases hg with hg | ⟨w, hw, hwf⟩
    · simp only [hg]
      rfl
    · simp only [hw, hwf]
      rfl
  · intro L p mid fields items hp hL hg atts hres
    unfold extract_message_attachments at hres
    rw [if_neg hp, hL] at hres
    simp only [hg] at hres
    have hitems : buildAttsGo mid 0 items = .ok atts := by
      cases items with
      | nil => simpa using hres
      | cons y ys => simpa [pyTruthy] using hres
    obtain ⟨h1, h2⟩ := buildAttsGo_spec mid items 0 atts hitems
    refine ⟨h1, fun a ha => ?_⟩
    rw [h2 a ha]
    exact infer_type_spec a.mime_type

/-- The 3-item example payload of the spec, as parsed by json.loads. -/
def fields3 : List (String × JVal) :=
  [("attachments", .jarr
    [.jobj [("mimeType", .jstr "image/jpeg")],
     .jobj [("mimetype", .jstr "audio/mpeg")],
     .jobj [("mimeType", .jstr "application/pdf")]])]

def loader3 : String → Option JVal := fun s =>
  if s = "p3" then some (.jobj fields3) else none

def items3 : List JVal :=
  [.jobj [("mimeType", .jstr "image/jpeg")],
   .jobj [("mimetype", .jstr "audio/mpeg")],
   .jobj [("mimeType", .jstr "application/pdf")]]

def atts3 : List MessageAttachment :=
  match extract_message_attachments loader3 "p3" "evt2" with
  | .ok l => l
  | .error _ => []

theorem extract_message_attachments_spec_witness :
    atts3.map (fun a => a.uri) =
      ["beeper://attachment/evt2/0", "beeper://attachment/evt2/1", "beeper://attachment/evt2/2"] ∧
    atts3.map (fun a => a.type) = ["image", "audio", "file"] := by
  have h := (extract_message_attachments_spec.2.2.2 loader3 "p3" "evt2" fields3 items3
    (by decide) rfl rfl atts3 rfl).1
  exact ⟨h.trans (by rfl), by rfl⟩

/-! ## C4: the inbox filter state machine -/

/-- The state machine of the claim, over the precomputed inputs: system
chats excluded; favourites included; non-archived included; archived with no
marker included; archived with marker M included iff the latest non-HIDDEN
sequence number exists and exceeds M. -/
def specInboxIncluded (isSystem isFav isArchived : Bool) (marker latest : Option Int) : Bool :=
  if isSystem then false
  else if isFav then true
  else if !isArchived then true
  else
    match marker with
    | none => true
    | some m =>
      match latest with
      | none => false
      | some h => decide (m < h)

/-- C4: for every candidate row whose thread record exists (every row of the
fetch_chats base query is drawn from the threads table), the inbox filter
keeps the row exactly as the claimed state machine prescribes, and
apply_inbox_filters keeps exactly the rows the per-row predicate accepts. -/
theorem apply_inbox_filters_state_machine (store : Store) (rows : List ChatRow)
    (row : ChatRow) (t : ThreadRow)
    (ht : store.threads.find? (fun x => x.threadID = row.chat_id) = some t) :
    inboxKeeps store row =
      specInboxIncluded
        (strEnds row.chat_id ":beeper.local" || strEnds row.chat_id ":beeper.com")
        (match row.tags with | some s => s ≠ "" && strContains s "favourite" | none => false)
        row.is_archived_upto.isSome
        t.archivedUpToOrder
        (latestHsOrder store row.chat_id) ∧
    (row ∈ apply_inbox_filters store rows ↔ row ∈ rows ∧ inboxKeeps store row = true) := by
  constructor
  · simp only [inboxKeeps, specInboxIncluded, ht]
  · simp [apply_inbox_filters, List.mem_filter]

def threadC4 : ThreadRow :=
  { threadID := "!a:x", title := none, participantsItems := none, threadType := none,
    isLowPriority := some 0, isMarkedUnread := none, isArchivedUpto := some 3,
    tags := some "[]", archivedUpToOrder := some 5 }

def msgC4 : MsgRow :=
  { roomID := "!a:x", senderContactID := "s", message := none, timestamp := 10,
    isSentByMe := false, type := "TEXT", inReplyToID := none, eventID := none,
    hsOrder := some 7, textField := none, extraType := none }

def storeC4 : Store := { threads := [threadC4], messages := [msgC4], breadcrumbs := [] }

def rowC4 : ChatRow := baseRow storeC4 threadC4

theorem apply_inbox_filters_state_machine_witness :
    inboxKeeps storeC4 rowC4 = true ∧ rowC4 ∈ apply_inbox_filters storeC4 [rowC4] := by
  have h := apply_inbox_filters_state_machine storeC4 [rowC4] rowC4 threadC4 (by rfl)
  exact ⟨h.1.trans (by rfl), h.2.mpr ⟨List.mem_cons_self _ _, h.1.trans (by rfl)⟩⟩

/-! ## C6: fetch_messages -/

theorem effBound_of_parse_none (env : Env) (b : String)
    (h : env.parseIso (b.replace "Z" "+00:00") = none) : effBound env (some b) = none := by
  unfold effBound
  by_cases hb : b = "" <;> simp [hb, h]

/-- C6: fetch_messages returns messages newest-first, restricted to the
returnable type set, with before as a strict upper and after as a strict
lower bound on the stored millisecond epoch obtained by ISO-8601 parsing;
a bound whose string fails to parse is silently dropped (the call equals the
call without that bound and still succeeds). -/
theorem fetch_messages_spec :
    (∀ (env : Env) (store : Store) (dbs : List PlatformDb) (cid : String) (lim : Nat)
      (b : String) (after : Option String), env.parseIso (b.replace "Z" "+00:00") = none →
      fetch_messages env store dbs cid lim (some b) after =
        fetch_messages env store dbs cid lim none after) ∧
    (∀ (env : Env) (store : Store) (dbs : List PlatformDb) (cid : String) (lim : Nat)
      (before : Option String) (a : String), env.parseIso (a.replace "Z" "+00:00") = none →
      fetch_messages env store dbs cid lim before (some a) =
        fetch_messages env store dbs cid lim before none) ∧
    (∀ (env : Env) (store : Store) (dbs : List PlatformDb) (cid : String) (lim : Nat)
      (before after : Option String),
      fetch_messages env store dbs cid lim before after =
        (fetchRows env store cid lim before after).map
          (fun m => buildMessageFromRow env store (rowOfMsg m) cid) ∧
      List.Sorted msgDescRel (fetchRows env store cid lim before after) ∧
      ∀ m ∈ fetchRows env store cid lim before after,
        m.roomID = cid ∧ m.type ∈ MESSAGE_TYPES_RETURN ∧ m.message.isSome = true ∧
        (∀ t, effBound env before = some t → m.timestamp < t) ∧
        (∀ t, effBound env after = some t → t < m.timestamp)) := by
  refine ⟨?_, ?_, ?_⟩
  · intro env store dbs cid lim b after h
    have hp : fetchPred env cid (some b) after = fetchPred env cid none after := by
      funext m
      unfold fetchPred
      rw [effBound_of_parse_none env b h]
      rfl
    unfold fetch_messages fetchRows
    rw [hp]
  · intro env store dbs cid lim before a h
    have hp : fetchPred env cid before (some a) = fetchPred env cid before none := by
      funext m
      unfold fetchPred
      rw [effBound_of_parse_none env a h]
      rfl
    unfold fetch_messages fetchRows
    rw [hp]
  · intro env store dbs cid lim before after
    refine ⟨rfl, ?_, ?_⟩
    · exact List.Pairwise.sublist (List.take_sublist _ _)
        (List.sorted_insertionSort msgDescRel _)
    · intro m hm
      have h1 : m ∈ (store.messages.filter (fetchPred env cid before after)).insertionSort
          msgDescRel := (List.take_sublist _ _).mem hm
      have h2 : m ∈ store.messages.filter (fetchPred env cid before after) :=
        (List.perm_insertionSort msgDescRel _).mem_iff.mp h1
      have hpred := (List.mem_filter.mp h2).2
      unfold fetchPred at hpred
      simp only [Bool.and_eq_true, decide_eq_true_eq] at hpred
      refine ⟨hpred.1.1.1.1, ?_, hpred.1.1.2, ?_, ?_⟩
      · exact List.mem_of_elem_eq_true hpred.1.1.1.2
      · intro t ht
        have := hpred.2
        rw [ht] at this
        simpa using this
      · intro t ht
        have := hpred.1.2
        rw [ht] at this
        simpa using this

def rowC6a : MsgRow :=
  { roomID := "A", senderContactID := "s", message := some "x", timestamp := 100,
    isSentByMe := false, type := "TEXT", inReplyToID := none, eventID := some "e1",
    hsOrder := some 1, textField := some "x", extraType := none }

def rowC6b : MsgRow :=
  { roomID := "A", senderContactID := "s", message := some "y", timestamp := 200,
    isSentByMe := false, type := "TEXT", inReplyToID := none, eventID := some "e2",
    hsOrder := some 2, textField := some "y", extraType := none }

def storeC6 : Store := { threads := [], messages := [rowC6a, rowC6b], breadcrumbs := [] }

theorem fetch_messages_spec_witness :
    envN.parseIso ("not-a-date".replace "Z" "+00:00") = none ∧
    fetch_messages envN storeC6 [] "A" 5 (some "not-a-date") none =
      fetch_messages envN storeC6 [] "A" 5 none none :=
  ⟨rfl, fetch_messages_spec.1 envN storeC6 [] "A" 5 "not-a-date" none rfl⟩

/-! ## C5: search context windows -/

/-- C5: with context requested, every search result replaces its singleton
match with the chronologically sorted returnable-type messages of the same
chat inside the inclusive one-hour window either side of the match (all of
them when they fit the context limit of 10), and falls back to the singleton
matched message when that window query is empty — so the messages list of
every ChatSearchResult is non-empty. -/
theorem search_messages_context_spec (env : Env) (store : Store) (dbs : List PlatformDb)
    (q : String) (cs : Option String) (lim : Nat) :
    ∀ res ∈ search_messages env store dbs q cs lim true,
      res.messages ≠ [] ∧
      ∃ m, m ∈ store.messages ∧ searchMatchPred q cs m = true ∧
        (contextRows store m.roomID m.timestamp 3600000 10 = [] →
          res.messages = [buildMessageFromRow env store (searchSingletonRow m) m.roomID]) ∧
        (contextRows store m.roomID m.timestamp 3600000 10 ≠ [] →
          res.messages = (contextRows store m.roomID m.timestamp 3600000 10).map
            (fun r => buildMessageFromRow env store (rowOfMsg r) m.roomID)) ∧
        List.Sorted msgAscRel (contextRows store m.roomID m.timestamp 3600000 10) ∧
        (∀ r ∈ contextRows store m.roomID m.timestamp 3600000 10,
          r.roomID = m.roomID ∧ r.type ∈ MESSAGE_TYPES_RETURN ∧ r.message.isSome = true ∧
          m.timestamp - 3600000 ≤ r.timestamp ∧ r.timestamp ≤ m.timestamp + 3600000) ∧
        ((store.messages.filter (ctxPred m.roomID m.timestamp 3600000)).length ≤ 10 →
          ∀ r ∈ store.messages, ctxPred m.roomID m.timestamp 3600000 r = true →
            r ∈ contextRows store m.roomID m.timestamp 3600000 10) := by
  intro res hres
  unfold search_messages at hres
  obtain ⟨m, hm, hres_eq⟩ := List.mem_map.mp hres
  have hm2 : m ∈ store.messages.filter (searchMatchPred q cs) := by
    unfold searchRows at hm
    exact (List.perm_insertionSort msgDescRel _).mem_iff.mp ((List.take_sublist _ _).mem hm)
  have hm_store := List.mem_filter.mp hm2
  have hmessages : res.messages =
      if (contextRows store m.roomID m.timestamp 3600000 10).isEmpty then
        [buildMessageFromRow env store (searchSingletonRow m) m.roomID]
      else (contextRows store m.roomID m.timestamp 3600000 10).map
        (fun r => buildMessageFromRow env store (rowOfMsg r) m.roomID) := by
    rw [← hres_eq]
    show (if (getContextMessages env store m.roomID m.timestamp 3600000 10).isEmpty then _
          else getContextMessages env store m.roomID m.timestamp 3600000 10) = _
    have hge : getContextMessages env store m.roomID m.timestamp 3600000 10 =
        (contextRows store m.roomID m.timestamp 3600000 10).map
          (fun r => buildMessageFromRow env store (rowOfMsg r) m.roomID) := rfl
    rw [hge]
    cases contextRows store m.roomID m.timestamp 3600000 10 <;> rfl
  have hsorted : List.Sorted msgAscRel (contextRows store m.roomID m.timestamp 3600000 10) :=
    List.Pairwise.sublist (List.take_sublist _ _) (List.sorted_insertionSort msgAscRel _)
  have hsound : ∀ r ∈ contextRows store m.roomID m.timestamp 3600000 10,
      r.roomID = m.roomID ∧ r.type ∈ MESSAGE_TYPES_RETURN ∧ r.message.isSome = true ∧
      m.timestamp - 3600000 ≤ r.timestamp ∧ r.timestamp ≤ m.timestamp + 3600000 := by
    intro r hr
    have hr2 : r ∈ store.messages.filter (ctxPred m.roomID m.timestamp 3600000) := by
      unfold contextRows at hr
      exact (List.perm_insertionSort msgAscRel _).mem_iff.mp ((List.take_sublist _ _).mem hr)
    have hp := (List.mem_filter.mp hr2).2
    unfold ctxPred at hp
    simp only [Bool.and_eq_true, decide_eq_true_eq] at hp
    exact ⟨hp.1.1.1.1, List.mem_of_elem_eq_true hp.1.1.1.2, hp.1.1.2, hp.1.2, hp.2⟩
  have hcomplete : (store.messages.filter (ctxPred m.roomID m.timestamp 3600000)).length ≤ 10 →
      ∀ r ∈ store.messages, ctxPred m.roomID m.timestamp 3600000 r = true →
        r ∈ contextRows store m.roomID m.timestamp 3600000 10 := by
    intro hlen r hr hp
    have hrf : r ∈ store.messages.filter (ctxPred m.roomID m.timestamp 3600000) :=
      List.mem_filter.mpr ⟨hr, hp⟩
    have hrs : r ∈ (store.messages.filter
        (ctxPred m.roomID m.timestamp 3600000)).insertionSort msgAscRel :=
      (List.perm_insertionSort msgAscRel _).mem_iff.mpr hrf
    unfold contextRows
    rw [List.take_of_length_le (by
      rw [(List.perm_insertionSort msgAscRel _).length_eq]
      exact hlen)]
    exact hrs
  refine ⟨?_, m, hm_store.1, hm_store.2, ?_, ?_, hsorted, hsound, hcomplete⟩
  · rw [hmessages]
    cases hc : contextRows store m.roomID m.timestamp 3600000 10 <;> simp
  · intro hc
    rw [hmessages, hc]
    rfl
  · intro hc
    rw [hmessages]
    cases hcc : contextRows store m.roomID m.timestamp 3600000 10 with
    | nil => exact absurd hcc hc
    | cons y ys => rfl

def rowC5 : MsgRow :=
  { roomID := "A", senderContactID := "alice", message := some "x", timestamp := 100,
    isSentByMe := false, type := "TEXT", inReplyToID := none, eventID := some "e1",
    hsOrder := some 1, textField := some "say hello there", extraType := none }

def storeC5 : Store := { threads := [], messages := [rowC5], breadcrumbs := [] }

def c5res : ChatSearchResult := mkSearchResult envN storeC5 [] true rowC5

theorem search_messages_context_spec_witness :
    c5res ∈ search_messages envN storeC5 [] "hello" none 25 true ∧ c5res.messages ≠ [] := by
  have hmem : c5res ∈ search_messages envN storeC5 [] "hello" none 25 true := by
    have he : search_messages envN storeC5 [] "hello" none 25 true = [c5res] := rfl
    rw [he]
    exact List.mem_cons_self _ _
  exact ⟨hmem, (search_messages_context_spec envN storeC5 [] "hello" none 25 c5res hmem).1⟩

/-! ## C2: the per-chat cap in get_messages_by_person -/

def threadC2 : ThreadRow :=
  { threadID := "achat", title := some "Achat",
    participantsItems := some [{ id := some "s1", fullName := some "Bobby" }],
    threadType := none, isLowPriority := some 0, isMarkedUnread := none,
    isArchivedUpto := none, tags := none, archivedUpToOrder := none }

def msgC2a1 : MsgRow :=
  { roomID := "achat", senderContactID := "s1", message := none, timestamp := 30,
    isSentByMe := false, type := "TEXT", inReplyToID := none, eventID := some "ea1",
    hsOrder := some 3, textField := none, extraType := none }

def msgC2a2 : MsgRow :=
  { roomID := "achat", senderContactID := "s1", message := none, timestamp := 20,
    isSentByMe := false, type := "TEXT", inReplyToID := none, eventID := some "ea2",
    hsOrder := some 2, textField := none, extraType := none }

def msgC2b : MsgRow :=
  { roomID := "bchat", senderContactID := "s1", message := none, timestamp := 10,
    isSentByMe := false, type := "TEXT", inReplyToID := none, eventID := some "eb1",
    hsOrder := some 1, textField := none, extraType := none }

def storeC2 : Store :=
  { threads := [threadC2], messages := [msgC2a1, msgC2a2, msgC2b], breadcrumbs := [] }

/-- C2 evaluation at the failing input: the sender s1 (resolved name Bobby,
matching the query bob) has two messages in chat achat and one older message
in chat bchat; with a per-chat limit of 2, the grouping loop breaks out of
the whole iteration after the second achat message, so bchat contributes no
result at all — the claim expects a bchat result carrying its one message. -/
theorem get_messages_by_person_break_eval :
    (get_messages_by_person envN storeC2 [] "bob" 2 none none none false).map
        (fun r => r.chat.chat_id) = ["achat"] ∧
    (get_messages_by_person envN storeC2 [] "bob" 2 none none none false).map
        (fun r => r.messages.length) = [2] := by
  exact ⟨rfl, rfl⟩

/-! ## C10: the unread label adds no filtering over all -/

/-- C10: fetch_chats with label unread and label all generate the same
conditions (only the shared low-priority exclusion) and return identical
results on every store and parameter combination; the unread state of a chat
only ever sets the unread flag of the returned Chat. -/
theorem fetch_chats_unread_eq_all :
    (∀ (lp : Bool) (r : ChatRow), condPred ChatLabel.unread lp r = condPred ChatLabel.all lp r) ∧
    (∀ (env : Env) (store : Store) (dbs : List PlatformDb) (lp : Bool)
      (lim rml mp : Nat) (sort_by : String),
      fetch_chats env store dbs ChatLabel.unread lp lim rml sort_by mp =
        fetch_chats env store dbs ChatLabel.all lp lim rml sort_by mp) := by
  constructor
  · intro lp r
    rfl
  · intro env store dbs lp lim rml mp sort_by
    rfl

end Beeper
